import Mathlib

/-!
Shallow embedding of the audo-eq mastering core (analysis → decision →
rendering pipeline) and proofs of the specification claims.

Numeric values are modelled as rationals (ℚ): every formula in the decision
and convergence layers is built from +, -, *, min, max, abs and comparisons,
which are exact on ℚ.  Transcendental measurements (FFT band energies,
log-domain loudness and true-peak measures) are abstracted as parameters of
the embedded functions; the control flow and clamp arithmetic that the
claims speak about are embedded verbatim from the source.
-/

namespace AudoEq

/-- Embedding of numpy clip: values below lo become lo, above hi become hi
(numpy evaluates min(hi, max(v, lo))). -/
def npClip (v lo hi : ℚ) : ℚ := min hi (max v lo)

/-- Embedding of decision._clamp, which delegates to np.clip. -/
def _clamp (value low high : ℚ) : ℚ := npClip value low high

/-- Tuning profile names: keys of the DECISION_TUNINGS / LOUDNESS_TUNINGS /
TRUE_PEAK_TUNINGS / ANALYSIS_TUNINGS dictionaries. -/
inductive Profile
| default
| conservative
| aggressive
deriving DecidableEq, Repr

/-- Embedding of processing.LoudnessTuning. -/
structure LoudnessTuning where
  post_limiter_lufs_tolerance : ℚ
  max_post_limiter_correction_db : ℚ
deriving DecidableEq, Repr

/-- Embedding of processing.TruePeakTuning. -/
structure TruePeakTuning where
  target_dbtp : ℚ
  tolerance_db : ℚ
  oversample_factor : ℕ := 4
deriving DecidableEq, Repr

/-- Embedding of processing.LOUDNESS_TUNINGS. -/
def LOUDNESS_TUNINGS : Profile → LoudnessTuning
| Profile.default => { post_limiter_lufs_tolerance := 0.3, max_post_limiter_correction_db := 1.5 }
| Profile.conservative => { post_limiter_lufs_tolerance := 0.45, max_post_limiter_correction_db := 1.0 }
| Profile.aggressive => { post_limiter_lufs_tolerance := 0.2, max_post_limiter_correction_db := 2.0 }

/-- Embedding of processing.TRUE_PEAK_TUNINGS. -/
def TRUE_PEAK_TUNINGS : Profile → TruePeakTuning
| Profile.default => { target_dbtp := -1.0, tolerance_db := 0.1, oversample_factor := 4 }
| Profile.conservative => { target_dbtp := -1.2, tolerance_db := 0.08, oversample_factor := 4 }
| Profile.aggressive => { target_dbtp := -0.8, tolerance_db := 0.12, oversample_factor := 4 }

/-- Embedding of decision.DecisionTuning (tuples become pairs lo × hi). -/
structure DecisionTuning where
  gain_clamp_db : ℚ × ℚ
  shelf_scale : ℚ
  shelf_clamp_db : ℚ × ℚ
  compressor_base_threshold_db : ℚ
  compressor_threshold_scale : ℚ
  compressor_threshold_clamp_db : ℚ × ℚ
  compressor_base_ratio : ℚ
  compressor_ratio_scale : ℚ
  compressor_ratio_clamp : ℚ × ℚ
  limiter_ceiling_clipping_db : ℚ
  limiter_ceiling_default_db : ℚ
  de_esser_threshold_base : ℚ
  de_esser_threshold_delta_scale : ℚ
  de_esser_threshold_clamp : ℚ × ℚ
  de_esser_depth_scale : ℚ
  de_esser_depth_clamp_db : ℚ × ℚ
deriving DecidableEq, Repr

/-- Embedding of decision.DECISION_TUNINGS. -/
def DECISION_TUNINGS : Profile → DecisionTuning
| Profile.default =>
  { gain_clamp_db := (-8.0, 8.0)
    shelf_scale := 12.0
    shelf_clamp_db := (-3.0, 3.0)
    compressor_base_threshold_db := -22.0
    compressor_threshold_scale := 1.2
    compressor_threshold_clamp_db := (-30.0, -14.0)
    compressor_base_ratio := 2.2
    compressor_ratio_scale := 0.3
    compressor_ratio_clamp := (1.5, 4.0)
    limiter_ceiling_clipping_db := -1.0
    limiter_ceiling_default_db := -0.9
    de_esser_threshold_base := 0.08
    de_esser_threshold_delta_scale := 0.2
    de_esser_threshold_clamp := (0.04, 0.2)
    de_esser_depth_scale := 30.0
    de_esser_depth_clamp_db := (0.0, 6.0) }
| Profile.conservative =>
  { gain_clamp_db := (-6.0, 6.0)
    shelf_scale := 9.0
    shelf_clamp_db := (-2.25, 2.25)
    compressor_base_threshold_db := -20.0
    compressor_threshold_scale := 0.8
    compressor_threshold_clamp_db := (-27.0, -16.0)
    compressor_base_ratio := 1.9
    compressor_ratio_scale := 0.2
    compressor_ratio_clamp := (1.3, 3.0)
    limiter_ceiling_clipping_db := -1.1
    limiter_ceiling_default_db := -1.0
    de_esser_threshold_base := 0.1
    de_esser_threshold_delta_scale := 0.15
    de_esser_threshold_clamp := (0.05, 0.22)
    de_esser_depth_scale := 24.0
    de_esser_depth_clamp_db := (0.0, 4.0) }
| Profile.aggressive =>
  { gain_clamp_db := (-9.0, 9.0)
    shelf_scale := 14.0
    shelf_clamp_db := (-4.0, 4.0)
    compressor_base_threshold_db := -24.0
    compressor_threshold_scale := 1.5
    compressor_threshold_clamp_db := (-32.0, -12.0)
    compressor_base_ratio := 2.6
    compressor_ratio_scale := 0.45
    compressor_ratio_clamp := (1.8, 5.0)
    limiter_ceiling_clipping_db := -0.9
    limiter_ceiling_default_db := -0.7
    de_esser_threshold_base := 0.07
    de_esser_threshold_delta_scale := 0.25
    de_esser_threshold_clamp := (0.035, 0.18)
    de_esser_depth_scale := 36.0
    de_esser_depth_clamp_db := (0.0, 8.0) }

/-- Embedding of analysis.TrackMetrics. -/
structure TrackMetrics where
  rms_db : ℚ
  spectral_centroid_hz : ℚ
  spectral_rolloff_hz : ℚ
  low_band_energy : ℚ
  mid_band_energy : ℚ
  high_band_energy : ℚ
  sibilance_ratio : ℚ
  crest_factor_db : ℚ
  is_clipping : Bool
  is_silent : Bool
deriving DecidableEq, Repr

/-- Embedding of analysis.EqBandCorrection. -/
structure EqBandCorrection where
  center_hz : ℚ
  delta_db : ℚ
deriving DecidableEq, Repr

/-- Embedding of analysis.AnalysisPayload (temporal metrics are diagnostics
only and do not feed the decisions the claims are about, so they are not
carried here). -/
structure AnalysisPayload where
  target : TrackMetrics
  reference : TrackMetrics
  eq_band_corrections : List EqBandCorrection
deriving DecidableEq, Repr

/-- Embedding of the AnalysisPayload.rms_delta_db property. -/
def AnalysisPayload.rms_delta_db (a : AnalysisPayload) : ℚ :=
  a.reference.rms_db - a.target.rms_db

/-- Embedding of the AnalysisPayload.sibilance_ratio_delta property. -/
def AnalysisPayload.sibilance_ratio_delta (a : AnalysisPayload) : ℚ :=
  a.target.sibilance_ratio - a.reference.sibilance_ratio

/-- Embedding of decision.DecisionPayload with its field defaults. -/
structure DecisionPayload where
  gain_db : ℚ
  low_shelf_gain_db : ℚ
  high_shelf_gain_db : ℚ
  compressor_threshold_db : ℚ
  compressor_ratio : ℚ
  limiter_ceiling_db : ℚ
  de_esser_threshold : ℚ := 0.0
  de_esser_depth_db : ℚ := 0.0
  multiband_compression_enabled : Bool := false
  multiband_low_threshold_db : ℚ := -24.0
  multiband_low_ratio : ℚ := 1.0
  multiband_mid_threshold_db : ℚ := -24.0
  multiband_mid_ratio : ℚ := 1.0
  multiband_high_threshold_db : ℚ := -24.0
  multiband_high_ratio : ℚ := 1.0
  dynamic_eq_enabled : Bool := false
  dynamic_eq_harsh_threshold : ℚ := 0.0
  dynamic_eq_harsh_attenuation_db : ℚ := 0.0
  stereo_ms_correction_enabled : Bool := false
  stereo_mid_gain_db : ℚ := 0.0
  stereo_side_gain_db : ℚ := 0.0
deriving DecidableEq, Repr

/-- Embedding of decision.StrategyCondition. -/
inductive StrategyCondition
| bass_heavy
| harsh_upper_mids
| over_compressed
| clipping_prone
deriving DecidableEq, Repr

/-- Embedding of decision.DecisionStrategyPolicy with its field defaults. -/
structure DecisionStrategyPolicy where
  strategy_id : String
  eq_intensity_scale : ℚ := 1.0
  dynamics_aggressiveness_scale : ℚ := 1.0
  de_esser_depth_scale : ℚ := 1.0
  de_esser_threshold_offset : ℚ := 0.0
  limiter_ceiling_offset_db : ℚ := 0.0
deriving DecidableEq, Repr

/-- Embedding of decision.StrategySelection. -/
structure StrategySelection where
  policy : DecisionStrategyPolicy
  conditions : List StrategyCondition
deriving DecidableEq, Repr

/-- Keys of the DECISION_STRATEGY_POLICIES dictionary. -/
inductive StrategyId
| balanced
| bass_control
| harsh_tame
| dynamic_rescue
| clip_guard
| corrective_combo
deriving DecidableEq, Repr

/-- Embedding of decision.DECISION_STRATEGY_POLICIES. -/
def DECISION_STRATEGY_POLICIES : StrategyId → DecisionStrategyPolicy
| StrategyId.balanced => { strategy_id := "balanced" }
| StrategyId.bass_control =>
  { strategy_id := "bass_control"
    eq_intensity_scale := 1.2
    dynamics_aggressiveness_scale := 1.1
    limiter_ceiling_offset_db := -0.05 }
| StrategyId.harsh_tame =>
  { strategy_id := "harsh_tame"
    eq_intensity_scale := 1.15
    de_esser_depth_scale := 1.2
    de_esser_threshold_offset := -0.01 }
| StrategyId.dynamic_rescue =>
  { strategy_id := "dynamic_rescue"
    dynamics_aggressiveness_scale := 1.3
    limiter_ceiling_offset_db := -0.1 }
| StrategyId.clip_guard =>
  { strategy_id := "clip_guard"
    limiter_ceiling_offset_db := -0.2
    dynamics_aggressiveness_scale := 1.15 }
| StrategyId.corrective_combo =>
  { strategy_id := "corrective_combo"
    eq_intensity_scale := 1.2
    dynamics_aggressiveness_scale := 1.25
    de_esser_depth_scale := 1.25
    de_esser_threshold_offset := -0.01
    limiter_ceiling_offset_db := -0.2 }

/-- Embedding of decision.select_decision_strategy.  The Python code appends
each condition at most once, so the appende-in-order list below is exactly
the source's conditions list; set(conditions) becomes List.toFinset. -/
def select_decision_strategy (analysis : AnalysisPayload) : StrategySelection :=
  let low_energy_delta := analysis.target.low_band_energy - analysis.reference.low_band_energy
  let high_energy_delta := analysis.target.high_band_energy - analysis.reference.high_band_energy
  let crest_delta := analysis.reference.crest_factor_db - analysis.target.crest_factor_db
  let conditions : List StrategyCondition :=
    (if low_energy_delta ≥ 0.08 then [StrategyCondition.bass_heavy] else []) ++
    (if high_energy_delta ≥ 0.08 ∨ analysis.sibilance_ratio_delta ≥ 0.025 then
      [StrategyCondition.harsh_upper_mids] else []) ++
    (if crest_delta ≥ 2.0 then [StrategyCondition.over_compressed] else []) ++
    (if analysis.target.is_clipping = true ∨ analysis.target.rms_db ≥ -9.0 then
      [StrategyCondition.clipping_prone] else [])
  let condition_set := conditions.toFinset
  let policy :=
    if 3 ≤ condition_set.card then DECISION_STRATEGY_POLICIES StrategyId.corrective_combo
    else if StrategyCondition.clipping_prone ∈ condition_set then
      DECISION_STRATEGY_POLICIES StrategyId.clip_guard
    else if StrategyCondition.over_compressed ∈ condition_set then
      DECISION_STRATEGY_POLICIES StrategyId.dynamic_rescue
    else if StrategyCondition.harsh_upper_mids ∈ condition_set then
      DECISION_STRATEGY_POLICIES StrategyId.harsh_tame
    else if StrategyCondition.bass_heavy ∈ condition_set then
      DECISION_STRATEGY_POLICIES StrategyId.bass_control
    else DECISION_STRATEGY_POLICIES StrategyId.balanced
  { policy := policy, conditions := conditions }

/-- Embedding of decision.decide_mastering.  Python initialises the advanced
fields to their defaults and overwrites them inside the advanced_mode branch;
here each advanced field is an if-then-else with the same default. -/
def decide_mastering (analysis : AnalysisPayload) (profile : Profile)
    (strategy : Option StrategySelection) (advanced_mode : Bool) : DecisionPayload :=
  let tuning := DECISION_TUNINGS profile
  let selected_strategy := strategy.getD (select_decision_strategy analysis)
  let policy := selected_strategy.policy
  let gain_db := _clamp analysis.rms_delta_db tuning.gain_clamp_db.1 tuning.gain_clamp_db.2
  let low_delta := analysis.reference.low_band_energy - analysis.target.low_band_energy
  let high_delta := analysis.reference.high_band_energy - analysis.target.high_band_energy
  let low_shelf_gain_db := _clamp (low_delta * tuning.shelf_scale * policy.eq_intensity_scale)
    tuning.shelf_clamp_db.1 tuning.shelf_clamp_db.2
  let high_shelf_gain_db := _clamp (high_delta * tuning.shelf_scale * policy.eq_intensity_scale)
    tuning.shelf_clamp_db.1 tuning.shelf_clamp_db.2
  let crest_delta := analysis.target.crest_factor_db - analysis.reference.crest_factor_db
  let compressor_threshold_db := _clamp
    (tuning.compressor_base_threshold_db +
      crest_delta * tuning.compressor_threshold_scale * policy.dynamics_aggressiveness_scale)
    tuning.compressor_threshold_clamp_db.1 tuning.compressor_threshold_clamp_db.2
  let compressor_ratio := _clamp
    (tuning.compressor_base_ratio +
      max 0.0 crest_delta * tuning.compressor_ratio_scale * policy.dynamics_aggressiveness_scale)
    tuning.compressor_ratio_clamp.1 tuning.compressor_ratio_clamp.2
  let limiter_ceiling_db :=
    (if analysis.target.is_clipping = true then tuning.limiter_ceiling_clipping_db
      else tuning.limiter_ceiling_default_db) + policy.limiter_ceiling_offset_db
  let de_esser_threshold := _clamp
    (tuning.de_esser_threshold_base +
      analysis.reference.sibilance_ratio * tuning.de_esser_threshold_delta_scale +
      policy.de_esser_threshold_offset)
    tuning.de_esser_threshold_clamp.1 tuning.de_esser_threshold_clamp.2
  let sibilance_excess := max 0.0 (analysis.target.sibilance_ratio - de_esser_threshold)
  let sibilance_delta_excess := max 0.0 analysis.sibilance_ratio_delta
  let de_esser_depth_db := _clamp
    ((sibilance_excess + 0.5 * sibilance_delta_excess) *
      tuning.de_esser_depth_scale * policy.de_esser_depth_scale)
    tuning.de_esser_depth_clamp_db.1 tuning.de_esser_depth_clamp_db.2
  let low_excess := max 0.0 (analysis.target.low_band_energy - analysis.reference.low_band_energy)
  let high_excess := max 0.0 (analysis.target.high_band_energy - analysis.reference.high_band_energy)
  let crest_miss := max 0.0 (analysis.reference.crest_factor_db - analysis.target.crest_factor_db)
  let dynamic_eq_harsh_threshold :=
    if advanced_mode then _clamp (analysis.reference.high_band_energy + 0.02) 0.04 0.35 else 0.0
  let harsh_excess := max 0.0 (analysis.target.high_band_energy - dynamic_eq_harsh_threshold) +
    max 0.0 analysis.sibilance_ratio_delta
  let dynamic_eq_harsh_attenuation_db :=
    if advanced_mode then _clamp (harsh_excess * 22.0) 0.0 4.5 else 0.0
  let mid_delta := analysis.reference.mid_band_energy - analysis.target.mid_band_energy
  let side_delta := analysis.target.high_band_energy - analysis.reference.high_band_energy
  let stereo_side_gain_db := if advanced_mode then _clamp (-(side_delta * 8.0)) (-1.5) 1.5 else 0.0
  let stereo_mid_gain_db := if advanced_mode then _clamp (mid_delta * 6.0) (-1.0) 1.0 else 0.0
  { gain_db := gain_db
    low_shelf_gain_db := low_shelf_gain_db
    high_shelf_gain_db := high_shelf_gain_db
    compressor_threshold_db := compressor_threshold_db
    compressor_ratio := compressor_ratio
    limiter_ceiling_db := limiter_ceiling_db
    de_esser_threshold := de_esser_threshold
    de_esser_depth_db := de_esser_depth_db
    multiband_compression_enabled :=
      advanced_mode && decide (low_excess ≥ 0.04 ∨ high_excess ≥ 0.04 ∨ crest_miss ≥ 1.5)
    multiband_low_threshold_db :=
      if advanced_mode then _clamp (-26.0 + low_excess * 30.0) (-32.0) (-16.0) else -24.0
    multiband_low_ratio :=
      if advanced_mode then _clamp (1.6 + low_excess * 6.0) 1.2 4.0 else 1.0
    multiband_mid_threshold_db :=
      if advanced_mode then _clamp (-24.0 + crest_miss * 1.2) (-30.0) (-16.0) else -24.0
    multiband_mid_ratio :=
      if advanced_mode then _clamp (1.5 + crest_miss * 0.45) 1.2 3.8 else 1.0
    multiband_high_threshold_db :=
      if advanced_mode then
        _clamp (-25.0 + (high_excess + analysis.sibilance_ratio_delta) * 25.0) (-32.0) (-15.0)
      else -24.0
    multiband_high_ratio :=
      if advanced_mode then
        _clamp (1.5 + (high_excess + analysis.sibilance_ratio_delta) * 8.0) 1.2 4.2
      else 1.0
    dynamic_eq_enabled := advanced_mode && decide (dynamic_eq_harsh_attenuation_db > 0.0)
    dynamic_eq_harsh_threshold := dynamic_eq_harsh_threshold
    dynamic_eq_harsh_attenuation_db := dynamic_eq_harsh_attenuation_db
    stereo_ms_correction_enabled :=
      advanced_mode && decide (|stereo_side_gain_db| ≥ 0.1 ∨ |stereo_mid_gain_db| ≥ 0.1)
    stereo_mid_gain_db := stereo_mid_gain_db
    stereo_side_gain_db := stereo_side_gain_db }

/-- Embedding of analysis.AnalysisTuning (tuples become lists). -/
structure AnalysisTuning where
  eq_band_edges_hz : List ℚ
  eq_smoothing_kernel : List ℚ
  eq_max_abs_db : ℚ
  eq_min_correction_db : ℚ
  target_normalized_rms_db : ℚ
deriving DecidableEq, Repr

/-- Embedding of analysis.ANALYSIS_TUNINGS. -/
def ANALYSIS_TUNINGS : Profile → AnalysisTuning
| Profile.default =>
  { eq_band_edges_hz := [20.0, 60.0, 120.0, 250.0, 500.0, 1000.0, 2000.0, 4000.0, 8000.0, 16000.0]
    eq_smoothing_kernel := [0.25, 0.5, 0.25]
    eq_max_abs_db := 4.0
    eq_min_correction_db := 0.75
    target_normalized_rms_db := -24.0 }
| Profile.conservative =>
  { eq_band_edges_hz := [20.0, 60.0, 120.0, 250.0, 500.0, 1000.0, 2000.0, 4000.0, 8000.0, 16000.0]
    eq_smoothing_kernel := [0.2, 0.6, 0.2]
    eq_max_abs_db := 3.0
    eq_min_correction_db := 1.0
    target_normalized_rms_db := -24.0 }
| Profile.aggressive =>
  { eq_band_edges_hz := [20.0, 60.0, 120.0, 250.0, 500.0, 1000.0, 2000.0, 4000.0, 8000.0, 16000.0]
    eq_smoothing_kernel := [0.3, 0.4, 0.3]
    eq_max_abs_db := 5.5
    eq_min_correction_db := 0.5
    target_normalized_rms_db := -23.0 }

/-- Embedding of the full np.convolve output: full[k] = Σ i, a[i]·v[k−i]. -/
def convolveFull (a v : List ℚ) : List ℚ :=
  (List.range (a.length + v.length - 1)).map (fun k =>
    ((List.range a.length).map (fun i =>
      a.getD i 0 * (if i ≤ k ∧ k - i < v.length then v.getD (k - i) 0 else 0))).sum)

/-- Embedding of np.convolve with mode same: the centered max(n,m)-length
slice of the full convolution, starting at offset (min n m − 1)/2. -/
def convolveSame (a v : List ℚ) : List ℚ :=
  let full := convolveFull a v
  let offset := (min a.length v.length - 1) / 2
  (List.range (max a.length v.length)).map (fun k => full.getD (k + offset) 0)

/-- Embedding of the smoothing/clamping/thresholding tail of
analysis._derive_eq_band_corrections.  The per-band dB deltas
(reference_db − target_db, computed by the source as 10·log10 of FFT band
powers, a transcendental map) and the band centers enter as arbitrary
rational lists; smoothing, clipping to ±eq_max_abs_db and dropping bands
below eq_min_correction_db are embedded verbatim. -/
def _derive_eq_band_corrections (target_centers deltas_db : List ℚ)
    (tuning : AnalysisTuning) : List EqBandCorrection :=
  let smoothed := convolveSame deltas_db tuning.eq_smoothing_kernel
  let bounded := smoothed.map (fun d => npClip d (-tuning.eq_max_abs_db) tuning.eq_max_abs_db)
  (target_centers.zip bounded).filterMap (fun cd =>
    if |cd.2| < tuning.eq_min_correction_db then none
    else some { center_hz := cd.1, delta_db := cd.2 })

/-- Mean of squared samples.  The source computes rms = sqrt of this; sqrt
is irrational, but every branch test on rms in the embedded functions is of
the form rms ≤ 0, which (rms being a real square root of a nonnegative
number) is equivalent to meanSquare ≤ 0, so branch structure is preserved
exactly without a sqrt. -/
def meanSquare (audio : List ℚ) : ℚ :=
  ((audio.map (fun x => x * x)).sum) / (audio.length : ℚ)

/-- Embedding of analysis._rms_db.  The final 20·log10(sqrt(meanSquare))
(only reached on strictly positive mean square) is abstracted as the
parameter dbOfMeanSquare. -/
def _rms_db (dbOfMeanSquare : ℚ → ℚ) (audio : List ℚ) : ℚ :=
  if audio.length = 0 then -96.0
  else if meanSquare audio ≤ 0 then -96.0
  else dbOfMeanSquare (meanSquare audio)

/-- Embedding of processing.measure_integrated_lufs on the pyloudnorm path:
the meter result enters as the pair (isFinite, measured). -/
def measure_integrated_lufs_meter (isFinite : Bool) (measured : ℚ) : ℚ :=
  if isFinite then measured else -70.0

/-- Embedding of the ModuleNotFoundError fallback path of
processing.measure_integrated_lufs, with the same sqrt/log abstraction as
_rms_db (the rms ≤ 0 test becomes meanSquare ≤ 0). -/
def measure_integrated_lufs_fallback (dbOfMeanSquare : ℚ → ℚ) (audio : List ℚ) : ℚ :=
  if meanSquare audio ≤ 0 then -70.0
  else npClip (dbOfMeanSquare (meanSquare audio)) (-70.0) 5.0

/-- Embedding of mastering_options.EqMode. -/
inductive EqMode
| fixed
| reference_match
deriving DecidableEq, Repr

/-- Embedding of mastering_options.EqPreset. -/
inductive EqPreset
| neutral
| warm
| bright
| vocal_presence
| bass_boost
deriving DecidableEq, Repr

/-- Embedding of mastering_options.DeEsserMode. -/
inductive DeEsserMode
| off
| auto
deriving DecidableEq, Repr

/-- Embedding of processing.EqPresetTuning with its field defaults. -/
structure EqPresetTuning where
  low_shelf_offset_db : ℚ := 0.0
  high_shelf_offset_db : ℚ := 0.0
  low_band_bias_db : ℚ := 0.0
  mid_band_bias_db : ℚ := 0.0
  high_band_bias_db : ℚ := 0.0
deriving DecidableEq, Repr

/-- Embedding of processing.EQ_PRESET_TUNINGS. -/
def EQ_PRESET_TUNINGS : EqPreset → EqPresetTuning
| EqPreset.neutral => {}
| EqPreset.warm =>
  { low_shelf_offset_db := 1.5, high_shelf_offset_db := -0.8, low_band_bias_db := 0.5 }
| EqPreset.bright =>
  { low_shelf_offset_db := -0.8, high_shelf_offset_db := 1.8, high_band_bias_db := 0.4 }
| EqPreset.vocal_presence =>
  { low_shelf_offset_db := -0.6, high_shelf_offset_db := 1.2, mid_band_bias_db := 0.8
    high_band_bias_db := 0.2 }
| EqPreset.bass_boost =>
  { low_shelf_offset_db := 2.0, high_shelf_offset_db := -0.5, low_band_bias_db := 0.8 }

/-- Embedding of processing.EQ_PRESET_TO_PROFILE. -/
def EQ_PRESET_TO_PROFILE : EqPreset → Profile
| EqPreset.neutral => Profile.default
| EqPreset.warm => Profile.conservative
| EqPreset.bright => Profile.aggressive
| EqPreset.vocal_presence => Profile.default
| EqPreset.bass_boost => Profile.aggressive

/-- Descriptor of one pedalboard stage with the numeric parameters the chain
builders pass to it.  The pedalboard plugin implementations themselves are
external black boxes; the claims are about the constructed parameter lists. -/
inductive Plugin
| highpassFilter (cutoff_frequency_hz : ℚ)
| lowShelfFilter (cutoff_frequency_hz gain_db : ℚ)
| highShelfFilter (cutoff_frequency_hz gain_db : ℚ)
| compressor (threshold_db ratio attack_ms release_ms : ℚ)
| gain (gain_db : ℚ)
| limiter (threshold_db release_ms : ℚ)
deriving DecidableEq, Repr

/-- Embedding of Python round(x, 6): round to 6 decimal digits, ties to the
even integer of scaled value (Python bankers rounding, exact on ℚ). -/
def round6 (q : ℚ) : ℚ :=
  let scaled := q * 1000000
  let n := ⌊scaled⌋
  let frac := scaled - (n : ℚ)
  let r : ℤ :=
    if frac < 1/2 then n
    else if 1/2 < frac then n + 1
    else if n % 2 = 0 then n else n + 1
  (r : ℚ) / 1000000

/-- Embedding of processing._band_bias_for_frequency. -/
def _band_bias_for_frequency (center_hz : ℚ) (tuning : EqPresetTuning) : ℚ :=
  if center_hz ≤ 250.0 then tuning.low_band_bias_db
  else if center_hz ≥ 4000.0 then tuning.high_band_bias_db
  else tuning.mid_band_bias_db

/-- Embedding of processing._build_reference_match_eq_stage: the source loop
appends one or two plugins per correction, i.e. a join of per-correction
plugin lists. -/
def _build_reference_match_eq_stage (eq_band_corrections : List EqBandCorrection)
    (tuning : EqPresetTuning) : List Plugin :=
  (eq_band_corrections.map (fun correction =>
    let center_hz := correction.center_hz
    let gain_db := correction.delta_db + _band_bias_for_frequency center_hz tuning
    if center_hz ≤ 250.0 then
      [Plugin.lowShelfFilter (max 40.0 center_hz) (round6 gain_db)]
    else if center_hz ≥ 4000.0 then
      [Plugin.highShelfFilter (min 12000.0 center_hz) (round6 gain_db)]
    else
      [Plugin.lowShelfFilter (max 100.0 (center_hz / 1.6)) (round6 (gain_db * 0.5)),
       Plugin.highShelfFilter (min 10000.0 (center_hz * 1.6)) (round6 (-gain_db * 0.5))])).flatten

/-- Embedding of processing._build_optional_de_esser_stage. -/
def _build_optional_de_esser_stage (decision : DecisionPayload)
    (de_esser_mode : DeEsserMode) : List Plugin :=
  if de_esser_mode = DeEsserMode.off then []
  else if decision.de_esser_depth_db ≤ 0.0 then []
  else [Plugin.highShelfFilter 6500.0 (round6 (-decision.de_esser_depth_db))]

/-- Embedding of processing._build_optional_dynamic_eq_stage. -/
def _build_optional_dynamic_eq_stage (decision : DecisionPayload)
    (advanced_mode : Bool) : List Plugin :=
  if advanced_mode = false ∨ decision.dynamic_eq_enabled = false then []
  else if decision.dynamic_eq_harsh_attenuation_db ≤ 0.0 then []
  else [Plugin.highShelfFilter 3500.0 (round6 (-decision.dynamic_eq_harsh_attenuation_db))]

/-- Embedding of processing._build_pre_limiter_plugins (the python list
building with extend/append, written as list concatenation). -/
def _build_pre_limiter_plugins (decision : DecisionPayload) (tuning : EqPresetTuning)
    (eq_mode : EqMode) (eq_band_corrections : List EqBandCorrection)
    (de_esser_mode : DeEsserMode) (gain_db : ℚ) (advanced_mode : Bool) : List Plugin :=
  [Plugin.highpassFilter 30.0,
   Plugin.lowShelfFilter 125.0
     (round6 (decision.low_shelf_gain_db + tuning.low_shelf_offset_db)),
   Plugin.highShelfFilter 6000.0
     (round6 (decision.high_shelf_gain_db + tuning.high_shelf_offset_db))] ++
  (if eq_mode = EqMode.reference_match then
    _build_reference_match_eq_stage eq_band_corrections tuning
   else []) ++
  _build_optional_dynamic_eq_stage decision advanced_mode ++
  (if advanced_mode = true ∧ decision.multiband_compression_enabled = true then []
   else [Plugin.compressor decision.compressor_threshold_db decision.compressor_ratio 15.0 120.0]) ++
  [Plugin.gain gain_db] ++
  _build_optional_de_esser_stage decision de_esser_mode

/-- Embedding of processing.build_dsp_chain. -/
def build_dsp_chain (decision : DecisionPayload) (eq_mode : EqMode) (eq_preset : EqPreset)
    (eq_band_corrections : List EqBandCorrection) (de_esser_mode : DeEsserMode)
    (advanced_mode : Bool) : List Plugin :=
  let tuning := EQ_PRESET_TUNINGS eq_preset
  _build_pre_limiter_plugins decision tuning eq_mode eq_band_corrections de_esser_mode
    decision.gain_db advanced_mode ++
  [Plugin.limiter decision.limiter_ceiling_db 150.0]

/-- Black-box pedalboard primitives at a fixed sample rate, as used inside
apply_processing_with_loudness_target: the fixed limiter built from
decision.limiter_ceiling_db, the Gain(gain_db) plugin, the two measures, and
the whole pre-limiter render (MS/multiband staging plus the pre-limiter
plugin chain).  The claims about the convergence loop are about its control
flow and clamp arithmetic, which are embedded verbatim below. -/
structure DspPrims (Signal : Type) where
  limiter : Signal → Signal
  gainF : ℚ → Signal → Signal
  measureLufs : Signal → ℚ
  measureDbtp : Signal → ℚ
  preChain : Signal → Signal

/-- Embedding of processing.apply_true_peak_guard, instrumented with the
number of limiter invocations it performs (second component). -/
def apply_true_peak_guard {Signal : Type} (P : DspPrims Signal)
    (tuning : TruePeakTuning) (audio : Signal) : Signal × ℕ :=
  let measured_dbtp := P.measureDbtp audio
  let tp_overshoot_db := measured_dbtp - tuning.target_dbtp
  if tp_overshoot_db ≤ tuning.tolerance_db then (audio, 0)
  else
    let gain_trim_db := -(tp_overshoot_db + tuning.tolerance_db)
    let trimmed_audio := P.gainF gain_trim_db audio
    (P.limiter trimmed_audio, 1)

/-- Embedding of processing.apply_processing_with_loudness_target after
profile resolution, instrumented with the total number of limiter
invocations (second component).  P.preChain renders the pre-limiter chain
(whose plugin list is _build_pre_limiter_plugins with
gain_db = decision.gain_db + loudness_gain_db). -/
def apply_processing_with_loudness_target {Signal : Type} (P : DspPrims Signal)
    (profile : Profile) (target_lufs : ℚ) (target_audio : Signal) : Signal × ℕ :=
  let loudness_tuning := LOUDNESS_TUNINGS profile
  let true_peak_tuning := TRUE_PEAK_TUNINGS profile
  let pre_limiter_audio := P.preChain target_audio
  let limited_audio := P.limiter pre_limiter_audio
  let final_lufs := P.measureLufs limited_audio
  let correction_db := npClip (target_lufs - final_lufs)
    (-loudness_tuning.max_post_limiter_correction_db)
    loudness_tuning.max_post_limiter_correction_db
  if |correction_db| < loudness_tuning.post_limiter_lufs_tolerance then
    let g := apply_true_peak_guard P true_peak_tuning limited_audio
    (g.1, 1 + g.2)
  else
    let corrected_audio := P.gainF correction_db limited_audio
    let corrected_limited_audio := P.limiter corrected_audio
    let g := apply_true_peak_guard P true_peak_tuning corrected_limited_audio
    (g.1, 2 + g.2)

/-- Buffer that processing.apply_processing_with_loudness_target hands to
apply_true_peak_guard: the once-limited render, re-gained and re-limited
exactly when the loudness correction was applied. -/
def guard_input_audio {Signal : Type} (P : DspPrims Signal)
    (profile : Profile) (target_lufs : ℚ) (target_audio : Signal) : Signal :=
  let loudness_tuning := LOUDNESS_TUNINGS profile
  let limited_audio := P.limiter (P.preChain target_audio)
  let correction_db := npClip (target_lufs - P.measureLufs limited_audio)
    (-loudness_tuning.max_post_limiter_correction_db)
    loudness_tuning.max_post_limiter_correction_db
  if |correction_db| < loudness_tuning.post_limiter_lufs_tolerance then limited_audio
  else P.limiter (P.gainF correction_db limited_audio)

/-- Whether the loudness-correction branch of
apply_processing_with_loudness_target fires (|correction_db| is not below
the profile tolerance). -/
def loudness_correction_applied {Signal : Type} (P : DspPrims Signal)
    (profile : Profile) (target_lufs : ℚ) (target_audio : Signal) : Bool :=
  let loudness_tuning := LOUDNESS_TUNINGS profile
  let limited_audio := P.limiter (P.preChain target_audio)
  let correction_db := npClip (target_lufs - P.measureLufs limited_audio)
    (-loudness_tuning.max_post_limiter_correction_db)
    loudness_tuning.max_post_limiter_correction_db
  !(decide (|correction_db| < loudness_tuning.post_limiter_lufs_tolerance))

/-- Whether apply_true_peak_guard trims (measured overshoot above tolerance)
on a given buffer. -/
def guard_trims {Signal : Type} (P : DspPrims Signal) (tuning : TruePeakTuning)
    (audio : Signal) : Bool :=
  !(decide (P.measureDbtp audio - tuning.target_dbtp ≤ tuning.tolerance_db))

/-- Black-box primitives used inside
processing._apply_optional_multiband_compression: the FFT band split, the
pedalboard Compressor (threshold, ratio, attack, release) and numpy array
addition. -/
structure MultibandPrims (Signal : Type) where
  bandpass : Option ℚ → Option ℚ → Signal → Signal
  compressorF : ℚ → ℚ → ℚ → ℚ → Signal → Signal
  add : Signal → Signal → Signal

/-- Embedding of processing._apply_optional_multiband_compression. -/
def _apply_optional_multiband_compression {Signal : Type} (B : MultibandPrims Signal)
    (audio : Signal) (decision : DecisionPayload) (advanced_mode : Bool) : Signal :=
  if advanced_mode = false ∨ decision.multiband_compression_enabled = false then audio
  else
    let low_band := B.bandpass none (some 200.0) audio
    let mid_band := B.bandpass (some 200.0) (some 4000.0) audio
    let high_band := B.bandpass (some 4000.0) none audio
    let low_processed := B.compressorF decision.multiband_low_threshold_db
      decision.multiband_low_ratio 25.0 160.0 low_band
    let mid_processed := B.compressorF decision.multiband_mid_threshold_db
      decision.multiband_mid_ratio 15.0 120.0 mid_band
    let high_processed := B.compressorF decision.multiband_high_threshold_db
      decision.multiband_high_ratio 8.0 90.0 high_band
    B.add (B.add low_processed mid_processed) high_processed

/-- Black-box body of processing._apply_optional_ms_gain_correction (the
mid/side decomposition with 10^(db/20) gains, shape check and final clip),
taking the two decision gains. -/
structure StereoPrims (Signal : Type) where
  msCorrect : ℚ → ℚ → Signal → Signal

/-- Embedding of processing._apply_optional_ms_gain_correction. -/
def _apply_optional_ms_gain_correction {Signal : Type} (S : StereoPrims Signal)
    (audio : Signal) (decision : DecisionPayload) (advanced_mode : Bool) : Signal :=
  if advanced_mode = false ∨ decision.stereo_ms_correction_enabled = false then audio
  else S.msCorrect decision.stereo_mid_gain_db decision.stereo_side_gain_db audio

/-- Embedding of core._LOUDNESS_GAIN_MIN_DB. -/
def _LOUDNESS_GAIN_MIN_DB : ℚ := -12.0

/-- Embedding of core._LOUDNESS_GAIN_MAX_DB. -/
def _LOUDNESS_GAIN_MAX_DB : ℚ := 12.0

/-- Embedding of core._compute_loudness_gain_delta_db. -/
def _compute_loudness_gain_delta_db (target_lufs reference_lufs : ℚ) : ℚ :=
  npClip (reference_lufs - target_lufs) _LOUDNESS_GAIN_MIN_DB _LOUDNESS_GAIN_MAX_DB

/-- Numeric parameters carried by one chain stage, in source order. -/
def pluginParams : Plugin → List ℚ
| Plugin.highpassFilter c => [c]
| Plugin.lowShelfFilter c g => [c, g]
| Plugin.highShelfFilter c g => [c, g]
| Plugin.compressor t r a rel => [t, r, a, rel]
| Plugin.gain g => [g]
| Plugin.limiter t r => [t, r]

/-- Predicate (as Bool): every shelf-filter gain parameter of the stage is a
6-decimal value (fixed point of round6); non-shelf stages are unconstrained. -/
def shelfGainRounded : Plugin → Bool
| Plugin.lowShelfFilter _ g => decide (round6 g = g)
| Plugin.highShelfFilter _ g => decide (round6 g = g)
| _ => true

/-- Wrap a policy-table key as the optional strategy argument of
decide_mastering (the conditions list does not influence the decision). -/
def strategy_selection_of (sid : Option StrategyId) : Option StrategySelection :=
  sid.map (fun i => { policy := DECISION_STRATEGY_POLICIES i, conditions := [] })

/-- All-zero track metrics, a base point for concrete analysis payloads. -/
def zeroMetrics : TrackMetrics :=
  { rms_db := 0, spectral_centroid_hz := 0, spectral_rolloff_hz := 0
    low_band_energy := 0, mid_band_energy := 0, high_band_energy := 0
    sibilance_ratio := 0, crest_factor_db := 0, is_clipping := false, is_silent := false }

/-- Concrete analysis payload: target has more low-band energy than the
reference (0.5 versus 0.2). -/
def C4_analysis : AnalysisPayload :=
  { target := { zeroMetrics with low_band_energy := 0.5 }
    reference := { zeroMetrics with low_band_energy := 0.2 }
    eq_band_corrections := [] }

/-- Concrete analysis payload where target exceeds reference in low band,
high band and sibilance simultaneously. -/
def C5_target : TrackMetrics :=
  { zeroMetrics with low_band_energy := 0.5, high_band_energy := 0.4, sibilance_ratio := 0.3 }

/-- Reference metrics for the C5 concrete payload. -/
def C5_reference : TrackMetrics :=
  { zeroMetrics with low_band_energy := 0.2, high_band_energy := 0.1, sibilance_ratio := 0.05 }

/-- Concrete analysis payload built from C5_target and C5_reference. -/
def C5_analysis : AnalysisPayload :=
  { target := C5_target, reference := C5_reference, eq_band_corrections := [] }

/-- Concrete decision payload whose compressor threshold (1/3) is not a
6-decimal value. -/
def C8_decision : DecisionPayload :=
  { gain_db := 1/3, low_shelf_gain_db := 0, high_shelf_gain_db := 0
    compressor_threshold_db := 1/3, compressor_ratio := 2, limiter_ceiling_db := 1/3 }

/-- Concrete instantiation of the abstract DSP primitives over Signal = ℚ,
where a signal is identified with its current true-peak level in dB: the
limiter is the identity (a hard ceiling that never raises the level) and
gain adds decibels. -/
def C1_prims : DspPrims ℚ :=
  { limiter := id
    gainF := fun g s => s + g
    measureLufs := fun _ => 0
    measureDbtp := id
    preChain := id }

/-- Membership of a value in a clamp range given as a (low, high) pair. -/
def inRange (x : ℚ) (r : ℚ × ℚ) : Prop := r.1 ≤ x ∧ x ≤ r.2

/-! ## Helper lemmas -/

theorem npClip_le_right (v lo hi : ℚ) : npClip v lo hi ≤ hi :=
  min_le_left _ _

theorem left_le_npClip (v lo hi : ℚ) (h : lo ≤ hi) : lo ≤ npClip v lo hi :=
  le_min h (le_max_right _ _)

theorem npClip_neg_of_neg (v lo hi : ℚ) (hv : v < 0) (hlo : lo < 0) :
    npClip v lo hi < 0 :=
  lt_of_le_of_lt (min_le_right _ _) (max_lt hv hlo)

theorem npClip_pos_of_pos (v lo hi : ℚ) (hv : 0 < v) (hhi : 0 < hi) :
    0 < npClip v lo hi :=
  lt_min hhi (lt_of_lt_of_le hv (le_max_left _ _))

theorem abs_npClip_le (v M : ℚ) (hM : 0 ≤ M) : |npClip v (-M) M| ≤ M :=
  abs_le.mpr ⟨left_le_npClip v (-M) M (by linarith), npClip_le_right v (-M) M⟩

theorem meanSquare_replicate_zero (n : ℕ) : meanSquare (List.replicate n 0) = 0 := by
  simp [meanSquare, List.map_replicate]

/-! ## Claim theorems -/

/-- C7: compute_track_metrics resolves silence to floor values rather than
raising: _rms_db of an empty or all-zero buffer is exactly −96.0;
measure_integrated_lufs returns exactly −70.0 whenever the meter result is
non-finite; and the RMS fallback path never returns a value below −70.0. -/
theorem C7_floor_values :
    (∀ dbOf : ℚ → ℚ, _rms_db dbOf [] = -96.0) ∧
    (∀ (dbOf : ℚ → ℚ) (n : ℕ), _rms_db dbOf (List.replicate n 0) = -96.0) ∧
    (∀ measured : ℚ, measure_integrated_lufs_meter false measured = -70.0) ∧
    (∀ (dbOf : ℚ → ℚ) (audio : List ℚ),
      -70.0 ≤ measure_integrated_lufs_fallback dbOf audio) := by
  refine ⟨fun dbOf => rfl, fun dbOf n => ?_, fun measured => rfl, fun dbOf audio => ?_⟩
  · rcases n with _ | m
    · rfl
    · rw [_rms_db, if_neg (by simp), if_pos (le_of_eq (meanSquare_replicate_zero (m + 1)))]
  · rw [measure_integrated_lufs_fallback]
    split
    · exact le_refl _
    · exact left_le_npClip _ _ _ (by norm_num)

/-- C9: the loudness-targeting gain added to the decision's static gain
equals clip(reference_lufs − target_lufs, −12, +12), is bounded to ±12 dB,
and enters the chain as the single static-gain stage of amount
decision.gain_db plus that clipped delta. -/
theorem C9_loudness_gain_clamped (target_lufs reference_lufs : ℚ)
    (decision : DecisionPayload) (tuning : EqPresetTuning) (eq_mode : EqMode)
    (eq_band_corrections : List EqBandCorrection) (de_esser_mode : DeEsserMode)
    (advanced_mode : Bool) :
    _compute_loudness_gain_delta_db target_lufs reference_lufs =
      npClip (reference_lufs - target_lufs) (-12.0) 12.0 ∧
    |_compute_loudness_gain_delta_db target_lufs reference_lufs| ≤ 12.0 ∧
    Plugin.gain (decision.gain_db + _compute_loudness_gain_delta_db target_lufs reference_lufs) ∈
      _build_pre_limiter_plugins decision tuning eq_mode eq_band_corrections de_esser_mode
        (decision.gain_db + _compute_loudness_gain_delta_db target_lufs reference_lufs)
        advanced_mode := by
  refine ⟨rfl, ?_, ?_⟩
  · have h := abs_npClip_le (reference_lufs - target_lufs) (12.0 : ℚ) (by norm_num)
    rw [_compute_loudness_gain_delta_db, _LOUDNESS_GAIN_MIN_DB, _LOUDNESS_GAIN_MAX_DB]
    exact h
  · simp [_build_pre_limiter_plugins]

/-- C10: with advanced_mode = False, decide_mastering leaves every advanced
field at its neutral default (multiband disabled with −24 dB thresholds and
unit ratios, dynamic EQ disabled with zero threshold and attenuation, stereo
MS correction disabled with zero gains), so the renderer applies no
multiband, dynamic-EQ or stereo stage regardless of the analysis input. -/
theorem C10_advanced_defaults (analysis : AnalysisPayload) (profile : Profile)
    (strategy : Option StrategySelection) :
    let d := decide_mastering analysis profile strategy false
    d.multiband_compression_enabled = false ∧
    d.multiband_low_threshold_db = -24.0 ∧ d.multiband_low_ratio = 1.0 ∧
    d.multiband_mid_threshold_db = -24.0 ∧ d.multiband_mid_ratio = 1.0 ∧
    d.multiband_high_threshold_db = -24.0 ∧ d.multiband_high_ratio = 1.0 ∧
    d.dynamic_eq_enabled = false ∧ d.dynamic_eq_harsh_threshold = 0.0 ∧
    d.dynamic_eq_harsh_attenuation_db = 0.0 ∧
    d.stereo_ms_correction_enabled = false ∧
    d.stereo_mid_gain_db = 0.0 ∧ d.stereo_side_gain_db = 0.0 ∧
    (∀ (Signal : Type) (B : MultibandPrims Signal) (audio : Signal) (adv : Bool),
      _apply_optional_multiband_compression B audio d adv = audio) ∧
    (∀ (Signal : Type) (S : StereoPrims Signal) (audio : Signal) (adv : Bool),
      _apply_optional_ms_gain_correction S audio d adv = audio) ∧
    (∀ adv : Bool, _build_optional_dynamic_eq_stage d adv = []) := by
  intro d
  have hmb : d.multiband_compression_enabled = false := rfl
  have hdyn : d.dynamic_eq_enabled = false := rfl
  have hst : d.stereo_ms_correction_enabled = false := rfl
  refine ⟨hmb, rfl, rfl, rfl, rfl, rfl, rfl, hdyn, rfl, rfl, hst, rfl, rfl, ?_, ?_, ?_⟩
  · intro Signal B audio adv
    rw [_apply_optional_multiband_compression, if_pos (Or.inr hmb)]
  · intro Signal S audio adv
    rw [_apply_optional_ms_gain_correction, if_pos (Or.inr hst)]
  · intro adv
    rw [_build_optional_dynamic_eq_stage, if_pos (Or.inr hdyn)]

/-- C2: after the initial limit pass, correction_db is the clamped
target-minus-measured loudness delta; |correction_db| strictly below the
profile tolerance sends the limited buffer to the true-peak guard with no
corrective gain, otherwise exactly one static gain of correction_db and one
re-limit precede the guard; the guard returns the buffer unchanged when the
measured overshoot is within tolerance_db and otherwise applies exactly one
static gain of −(overshoot + tolerance) dB followed by one more limiter
pass. -/
theorem C2_convergence_branch_structure {Signal : Type} (P : DspPrims Signal)
    (profile : Profile) (target_lufs : ℚ) (target_audio : Signal)
    (tpTuning : TruePeakTuning) (audio : Signal) :
    (apply_processing_with_loudness_target P profile target_lufs target_audio =
      (let limited_audio := P.limiter (P.preChain target_audio)
       let correction_db := npClip (target_lufs - P.measureLufs limited_audio)
         (-(LOUDNESS_TUNINGS profile).max_post_limiter_correction_db)
         (LOUDNESS_TUNINGS profile).max_post_limiter_correction_db
       if |correction_db| < (LOUDNESS_TUNINGS profile).post_limiter_lufs_tolerance then
         let g := apply_true_peak_guard P (TRUE_PEAK_TUNINGS profile) limited_audio
         (g.1, 1 + g.2)
       else
         let g := apply_true_peak_guard P (TRUE_PEAK_TUNINGS profile)
           (P.limiter (P.gainF correction_db limited_audio))
         (g.1, 2 + g.2))) ∧
    (apply_true_peak_guard P tpTuning audio =
      if P.measureDbtp audio - tpTuning.target_dbtp ≤ tpTuning.tolerance_db then (audio, 0)
      else
        (P.limiter (P.gainF
          (-(P.measureDbtp audio - tpTuning.target_dbtp + tpTuning.tolerance_db)) audio), 1)) :=
  ⟨rfl, rfl⟩

theorem apply_true_peak_guard_count {Signal : Type} (P : DspPrims Signal)
    (t : TruePeakTuning) (audio : Signal) :
    (apply_true_peak_guard P t audio).2 = if guard_trims P t audio then 1 else 0 := by
  rw [apply_true_peak_guard, guard_trims]
  split
  case isTrue h => simp [h]
  case isFalse h => simp [h]

theorem apply_true_peak_guard_dbtp {Signal : Type} (P : DspPrims Signal)
    (t : TruePeakTuning) (audio : Signal)
    (hLim : ∀ s, P.measureDbtp (P.limiter s) ≤ P.measureDbtp s)
    (hGain : ∀ g s, P.measureDbtp (P.gainF g s) = P.measureDbtp s + g)
    (htol : 0 ≤ t.tolerance_db) :
    P.measureDbtp (apply_true_peak_guard P t audio).1 ≤ t.target_dbtp + t.tolerance_db := by
  rw [apply_true_peak_guard]
  split
  case isTrue h =>
    dsimp only
    linarith
  case isFalse h =>
    dsimp only
    have h1 := hLim (P.gainF (-(P.measureDbtp audio - t.target_dbtp + t.tolerance_db)) audio)
    have h2 := hGain (-(P.measureDbtp audio - t.target_dbtp + t.tolerance_db)) audio
    linarith

theorem true_peak_tolerance_nonneg (profile : Profile) :
    0 ≤ (TRUE_PEAK_TUNINGS profile).tolerance_db := by
  cases profile <;> norm_num [TRUE_PEAK_TUNINGS]

/-- C1: one call to apply_processing_with_loudness_target invokes the
limiter exactly 1 + (1 if the loudness correction fires) + (1 if the
true-peak guard trims) times, hence at most 3 times; and when the limiter
never increases the measured true peak (and gain shifts it additively, the
defining property of a dB measure), the returned signal's true peak is at
most target_dbtp + tolerance_db of the selected profile's true-peak
tuning. -/
theorem C1_limiter_budget_and_true_peak {Signal : Type} (P : DspPrims Signal)
    (profile : Profile) (target_lufs : ℚ) (target_audio : Signal)
    (hLim : ∀ s, P.measureDbtp (P.limiter s) ≤ P.measureDbtp s)
    (hGain : ∀ g s, P.measureDbtp (P.gainF g s) = P.measureDbtp s + g) :
    ((apply_processing_with_loudness_target P profile target_lufs target_audio).2 =
      1 + (if loudness_correction_applied P profile target_lufs target_audio then 1 else 0) +
        (if guard_trims P (TRUE_PEAK_TUNINGS profile)
            (guard_input_audio P profile target_lufs target_audio) then 1 else 0)) ∧
    (apply_processing_with_loudness_target P profile target_lufs target_audio).2 ≤ 3 ∧
    P.measureDbtp (apply_processing_with_loudness_target P profile target_lufs target_audio).1 ≤
      (TRUE_PEAK_TUNINGS profile).target_dbtp + (TRUE_PEAK_TUNINGS profile).tolerance_db := by
  have key :
      apply_processing_with_loudness_target P profile target_lufs target_audio =
        ((apply_true_peak_guard P (TRUE_PEAK_TUNINGS profile)
            (guard_input_audio P profile target_lufs target_audio)).1,
          (if loudness_correction_applied P profile target_lufs target_audio then 2 else 1) +
            (apply_true_peak_guard P (TRUE_PEAK_TUNINGS profile)
              (guard_input_audio P profile target_lufs target_audio)).2) := by
    rw [apply_processing_with_loudness_target, guard_input_audio, loudness_correction_applied]
    by_cases hc :
        |npClip (target_lufs - P.measureLufs (P.limiter (P.preChain target_audio)))
            (-(LOUDNESS_TUNINGS profile).max_post_limiter_correction_db)
            (LOUDNESS_TUNINGS profile).max_post_limiter_correction_db| <
          (LOUDNESS_TUNINGS profile).post_limiter_lufs_tolerance
    · simp [hc]
    · simp [hc]
  rw [key]
  have hcount := apply_true_peak_guard_count P (TRUE_PEAK_TUNINGS profile)
    (guard_input_audio P profile target_lufs target_audio)
  refine ⟨?_, ?_, ?_⟩
  · rw [hcount]
    split <;> omega
  · rw [hcount]
    split <;> split <;> omega
  · exact apply_true_peak_guard_dbtp P (TRUE_PEAK_TUNINGS profile) _ hLim hGain
      (true_peak_tolerance_nonneg profile)

/-- C1 witness: the bounds instantiated at the rational model where a signal
is its own true-peak level, everything concrete. -/
theorem C1_limiter_budget_and_true_peak_witness :
    ((apply_processing_with_loudness_target C1_prims Profile.default 0 0).2 =
      1 + (if loudness_correction_applied C1_prims Profile.default 0 0 then 1 else 0) +
        (if guard_trims C1_prims (TRUE_PEAK_TUNINGS Profile.default)
            (guard_input_audio C1_prims Profile.default 0 0) then 1 else 0)) ∧
    (apply_processing_with_loudness_target C1_prims Profile.default 0 0).2 ≤ 3 ∧
    C1_prims.measureDbtp (apply_processing_with_loudness_target C1_prims Profile.default 0 0).1 ≤
      (TRUE_PEAK_TUNINGS Profile.default).target_dbtp +
        (TRUE_PEAK_TUNINGS Profile.default).tolerance_db :=
  C1_limiter_budget_and_true_peak C1_prims Profile.default 0 0
    (fun s => le_refl (C1_prims.measureDbtp (C1_prims.limiter s)))
    (fun _ _ => rfl)

theorem clamp_mem (v lo hi : ℚ) (h : lo ≤ hi) : inRange (npClip v lo hi) (lo, hi) :=
  ⟨left_le_npClip v lo hi h, npClip_le_right v lo hi⟩

/-- C3: every profile-clamped field of the DecisionPayload returned by
decide_mastering lies within the clamp range the selected profile declares
for it, and every EqBandCorrection produced by the analysis derivation has
|delta_db| between the profile's eq_min_correction_db and eq_max_abs_db. -/
theorem C3_decision_bounded (analysis : AnalysisPayload) (profile : Profile)
    (strategy : Option StrategySelection) (advanced_mode : Bool) :
    inRange (decide_mastering analysis profile strategy advanced_mode).gain_db
      (DECISION_TUNINGS profile).gain_clamp_db ∧
    inRange (decide_mastering analysis profile strategy advanced_mode).low_shelf_gain_db
      (DECISION_TUNINGS profile).shelf_clamp_db ∧
    inRange (decide_mastering analysis profile strategy advanced_mode).high_shelf_gain_db
      (DECISION_TUNINGS profile).shelf_clamp_db ∧
    inRange (decide_mastering analysis profile strategy advanced_mode).compressor_threshold_db
      (DECISION_TUNINGS profile).compressor_threshold_clamp_db ∧
    inRange (decide_mastering analysis profile strategy advanced_mode).compressor_ratio
      (DECISION_TUNINGS profile).compressor_ratio_clamp ∧
    inRange (decide_mastering analysis profile strategy advanced_mode).de_esser_threshold
      (DECISION_TUNINGS profile).de_esser_threshold_clamp ∧
    inRange (decide_mastering analysis profile strategy advanced_mode).de_esser_depth_db
      (DECISION_TUNINGS profile).de_esser_depth_clamp_db ∧
    (∀ (target_centers deltas_db : List ℚ) (c : EqBandCorrection),
      c ∈ _derive_eq_band_corrections target_centers deltas_db (ANALYSIS_TUNINGS profile) →
      (ANALYSIS_TUNINGS profile).eq_min_correction_db ≤ |c.delta_db| ∧
      |c.delta_db| ≤ (ANALYSIS_TUNINGS profile).eq_max_abs_db) := by
  refine ⟨clamp_mem _ _ _ ?_, clamp_mem _ _ _ ?_, clamp_mem _ _ _ ?_, clamp_mem _ _ _ ?_,
    clamp_mem _ _ _ ?_, clamp_mem _ _ _ ?_, clamp_mem _ _ _ ?_, ?_⟩
  case _ => cases profile <;> norm_num [DECISION_TUNINGS]
  case _ => cases profile <;> norm_num [DECISION_TUNINGS]
  case _ => cases profile <;> norm_num [DECISION_TUNINGS]
  case _ => cases profile <;> norm_num [DECISION_TUNINGS]
  case _ => cases profile <;> norm_num [DECISION_TUNINGS]
  case _ => cases profile <;> norm_num [DECISION_TUNINGS]
  case _ => cases profile <;> norm_num [DECISION_TUNINGS]
  intro target_centers deltas_db c hc
  have hM : (0 : ℚ) ≤ (ANALYSIS_TUNINGS profile).eq_max_abs_db := by
    cases profile <;> norm_num [ANALYSIS_TUNINGS]
  simp only [_derive_eq_band_corrections, List.mem_filterMap] at hc
  obtain ⟨cd, hcd, hf⟩ := hc
  by_cases habs : |cd.2| < (ANALYSIS_TUNINGS profile).eq_min_correction_db
  · rw [if_pos habs] at hf
    exact absurd hf (by simp)
  · rw [if_neg habs] at hf
    have hcc : c = EqBandCorrection.mk cd.1 cd.2 := by
      cases hf
      rfl
    have h2 : cd.2 ∈ (convolveSame deltas_db (ANALYSIS_TUNINGS profile).eq_smoothing_kernel).map
        (fun d => npClip d (-(ANALYSIS_TUNINGS profile).eq_max_abs_db)
          (ANALYSIS_TUNINGS profile).eq_max_abs_db) := (List.of_mem_zip hcd).2
    obtain ⟨d0, _, hmap⟩ := List.mem_map.mp h2
    constructor
    · rw [hcc]
      exact le_of_not_lt habs
    · rw [hcc]
      have habs2 := abs_npClip_le d0 (ANALYSIS_TUNINGS profile).eq_max_abs_db hM
      rw [hmap] at habs2
      exact habs2

/-- C3 witness: a concrete derived EQ correction obeys both magnitude
bounds. -/
theorem C3_decision_bounded_witness :
    (ANALYSIS_TUNINGS Profile.default).eq_min_correction_db ≤
      |(EqBandCorrection.mk 100 4).delta_db| ∧
    |(EqBandCorrection.mk 100 4).delta_db| ≤ (ANALYSIS_TUNINGS Profile.default).eq_max_abs_db :=
  (C3_decision_bounded C4_analysis Profile.default none false).2.2.2.2.2.2.2
    [100] [10, 10, 10] (EqBandCorrection.mk 100 4) (by with_unfolding_all decide)

/-- C4 counterexample: with target low-band energy 0.5 against reference
0.2 (balanced strategy, default profile), the claimed formula built on the
target-minus-reference delta gives +3 dB while decide_mastering returns
−3 dB, so the claim as stated is false. -/
theorem C4_counterexample :
    (decide_mastering C4_analysis Profile.default
        (some { policy := DECISION_STRATEGY_POLICIES StrategyId.balanced, conditions := [] })
        false).low_shelf_gain_db ≠
      _clamp ((C4_analysis.target.low_band_energy - C4_analysis.reference.low_band_energy) *
          (DECISION_TUNINGS Profile.default).shelf_scale *
          (DECISION_STRATEGY_POLICIES StrategyId.balanced).eq_intensity_scale)
        (DECISION_TUNINGS Profile.default).shelf_clamp_db.1
        (DECISION_TUNINGS Profile.default).shelf_clamp_db.2 := by
  with_unfolding_all decide

/-- C4 (amended): each shelf gain is the clamped product of the
reference-minus-target band-energy delta with the profile's shelf_scale and
the strategy's eq_intensity_scale. -/
theorem C4_amended_shelf_formula (analysis : AnalysisPayload) (profile : Profile)
    (strategy : Option StrategySelection) (advanced_mode : Bool) :
    (decide_mastering analysis profile strategy advanced_mode).low_shelf_gain_db =
      _clamp ((analysis.reference.low_band_energy - analysis.target.low_band_energy) *
          (DECISION_TUNINGS profile).shelf_scale *
          (strategy.getD (select_decision_strategy analysis)).policy.eq_intensity_scale)
        (DECISION_TUNINGS profile).shelf_clamp_db.1
        (DECISION_TUNINGS profile).shelf_clamp_db.2 ∧
    (decide_mastering analysis profile strategy advanced_mode).high_shelf_gain_db =
      _clamp ((analysis.reference.high_band_energy - analysis.target.high_band_energy) *
          (DECISION_TUNINGS profile).shelf_scale *
          (strategy.getD (select_decision_strategy analysis)).policy.eq_intensity_scale)
        (DECISION_TUNINGS profile).shelf_clamp_db.1
        (DECISION_TUNINGS profile).shelf_clamp_db.2 :=
  ⟨rfl, rfl⟩

theorem ite_policy_table (p1 p2 p3 p4 p5 : Prop) [Decidable p1] [Decidable p2]
    [Decidable p3] [Decidable p4] [Decidable p5] (i1 i2 i3 i4 i5 i6 : StrategyId) :
    ∃ i : StrategyId,
      (if p1 then DECISION_STRATEGY_POLICIES i1
       else if p2 then DECISION_STRATEGY_POLICIES i2
       else if p3 then DECISION_STRATEGY_POLICIES i3
       else if p4 then DECISION_STRATEGY_POLICIES i4
       else if p5 then DECISION_STRATEGY_POLICIES i5
       else DECISION_STRATEGY_POLICIES i6) = DECISION_STRATEGY_POLICIES i := by
  repeat
    first
    | exact ⟨_, rfl⟩
    | split

theorem select_policy_is_table (analysis : AnalysisPayload) :
    ∃ i : StrategyId,
      (select_decision_strategy analysis).policy = DECISION_STRATEGY_POLICIES i :=
  ite_policy_table _ _ _ _ _ _ _ _ _ _ _

theorem used_policy_is_table (analysis : AnalysisPayload) (sid : Option StrategyId) :
    ∃ i : StrategyId,
      ((strategy_selection_of sid).getD (select_decision_strategy analysis)).policy =
        DECISION_STRATEGY_POLICIES i := by
  cases sid with
  | none => simpa [strategy_selection_of] using select_policy_is_table analysis
  | some i => exact ⟨i, rfl⟩

theorem policy_eq_intensity_pos (i : StrategyId) :
    0 < (DECISION_STRATEGY_POLICIES i).eq_intensity_scale := by
  cases i <;> norm_num [DECISION_STRATEGY_POLICIES]

theorem policy_de_esser_depth_pos (i : StrategyId) :
    0 < (DECISION_STRATEGY_POLICIES i).de_esser_depth_scale := by
  cases i <;> norm_num [DECISION_STRATEGY_POLICIES]

/-- C5: when the target strictly exceeds the reference in low-band energy
the low shelf gain is strictly negative; likewise for the high band and the
high shelf; and when the target's sibilance ratio strictly exceeds the
reference's the de-esser depth is strictly positive (applied as
attenuation). -/
theorem C5_directional_corrections (analysis : AnalysisPayload) (profile : Profile)
    (sid : Option StrategyId) (advanced_mode : Bool) :
    (analysis.reference.low_band_energy < analysis.target.low_band_energy →
      (decide_mastering analysis profile (strategy_selection_of sid)
        advanced_mode).low_shelf_gain_db < 0) ∧
    (analysis.reference.high_band_energy < analysis.target.high_band_energy →
      (decide_mastering analysis profile (strategy_selection_of sid)
        advanced_mode).high_shelf_gain_db < 0) ∧
    (analysis.reference.sibilance_ratio < analysis.target.sibilance_ratio →
      0 < (decide_mastering analysis profile (strategy_selection_of sid)
        advanced_mode).de_esser_depth_db) := by
  obtain ⟨i, hi⟩ := used_policy_is_table analysis sid
  have hintensity : 0 <
      ((strategy_selection_of sid).getD (select_decision_strategy analysis)).policy.eq_intensity_scale := by
    rw [hi]
    exact policy_eq_intensity_pos i
  have hdepthscale : 0 <
      ((strategy_selection_of sid).getD (select_decision_strategy analysis)).policy.de_esser_depth_scale := by
    rw [hi]
    exact policy_de_esser_depth_pos i
  have hscale : 0 < (DECISION_TUNINGS profile).shelf_scale := by
    cases profile <;> norm_num [DECISION_TUNINGS]
  have hlo : (DECISION_TUNINGS profile).shelf_clamp_db.1 < 0 := by
    cases profile <;> norm_num [DECISION_TUNINGS]
  have hds : 0 < (DECISION_TUNINGS profile).de_esser_depth_scale := by
    cases profile <;> norm_num [DECISION_TUNINGS]
  have hdhi : 0 < (DECISION_TUNINGS profile).de_esser_depth_clamp_db.2 := by
    cases profile <;> norm_num [DECISION_TUNINGS]
  refine ⟨fun hlow => ?_, fun hhigh => ?_, fun hsib => ?_⟩
  · show npClip ((analysis.reference.low_band_energy - analysis.target.low_band_energy) *
        (DECISION_TUNINGS profile).shelf_scale *
        ((strategy_selection_of sid).getD (select_decision_strategy analysis)).policy.eq_intensity_scale)
      (DECISION_TUNINGS profile).shelf_clamp_db.1 (DECISION_TUNINGS profile).shelf_clamp_db.2 < 0
    exact npClip_neg_of_neg _ _ _
      (mul_neg_of_neg_of_pos (mul_neg_of_neg_of_pos (by linarith) hscale) hintensity) hlo
  · show npClip ((analysis.reference.high_band_energy - analysis.target.high_band_energy) *
        (DECISION_TUNINGS profile).shelf_scale *
        ((strategy_selection_of sid).getD (select_decision_strategy analysis)).policy.eq_intensity_scale)
      (DECISION_TUNINGS profile).shelf_clamp_db.1 (DECISION_TUNINGS profile).shelf_clamp_db.2 < 0
    exact npClip_neg_of_neg _ _ _
      (mul_neg_of_neg_of_pos (mul_neg_of_neg_of_pos (by linarith) hscale) hintensity) hlo
  · have hdelta : 0 < analysis.sibilance_ratio_delta := by
      simp only [AnalysisPayload.sibilance_ratio_delta]
      linarith
    have hsum : 0 <
        max 0.0 (analysis.target.sibilance_ratio -
          (decide_mastering analysis profile (strategy_selection_of sid)
            advanced_mode).de_esser_threshold) +
          0.5 * max 0.0 analysis.sibilance_ratio_delta := by
      have h1 : (0.0 : ℚ) ≤ max 0.0 (analysis.target.sibilance_ratio -
          (decide_mastering analysis profile (strategy_selection_of sid)
            advanced_mode).de_esser_threshold) := le_max_left _ _
      have h2 : analysis.sibilance_ratio_delta ≤ max 0.0 analysis.sibilance_ratio_delta :=
        le_max_right _ _
      have h0 : (0.0 : ℚ) = 0 := by norm_num
      rw [h0] at h1
      linarith
    exact npClip_pos_of_pos _ _ _ (mul_pos (mul_pos hsum hds) hdepthscale) hdhi

/-- C5 witness: the directional conclusions at a concrete payload where the
target exceeds the reference in all three respects. -/
theorem C5_directional_corrections_witness :
    (decide_mastering C5_analysis Profile.default (strategy_selection_of none)
      false).low_shelf_gain_db < 0 ∧
    (decide_mastering C5_analysis Profile.default (strategy_selection_of none)
      false).high_shelf_gain_db < 0 ∧
    0 < (decide_mastering C5_analysis Profile.default (strategy_selection_of none)
      false).de_esser_depth_db := by
  obtain ⟨h1, h2, h3⟩ := C5_directional_corrections C5_analysis Profile.default none false
  exact ⟨h1 (by with_unfolding_all decide), h2 (by with_unfolding_all decide),
    h3 (by with_unfolding_all decide)⟩

/-- C6: select_decision_strategy is the fixed decision table — four
threshold conditions (bass ≥ 0.08 low excess, harsh ≥ 0.08 high excess or
≥ 0.025 sibilance delta, over-compressed ≥ 2 dB crest shortfall,
clipping-prone on clipping or rms ≥ −9 dB), corrective_combo exactly when
at least 3 distinct conditions hold, otherwise the first match in priority
order clipping > over-compressed > harsh > bass, with balanced fallback. -/
theorem C6_strategy_selection_table (analysis : AnalysisPayload) :
    (select_decision_strategy analysis).policy =
      (if (if analysis.target.low_band_energy - analysis.reference.low_band_energy ≥ 0.08
            then 1 else 0) +
          (if analysis.target.high_band_energy - analysis.reference.high_band_energy ≥ 0.08 ∨
              analysis.sibilance_ratio_delta ≥ 0.025 then 1 else 0) +
          (if analysis.reference.crest_factor_db - analysis.target.crest_factor_db ≥ 2.0
            then 1 else 0) +
          (if analysis.target.is_clipping = true ∨ analysis.target.rms_db ≥ -9.0
            then 1 else 0) ≥ 3 then
        DECISION_STRATEGY_POLICIES StrategyId.corrective_combo
      else if analysis.target.is_clipping = true ∨ analysis.target.rms_db ≥ -9.0 then
        DECISION_STRATEGY_POLICIES StrategyId.clip_guard
      else if analysis.reference.crest_factor_db - analysis.target.crest_factor_db ≥ 2.0 then
        DECISION_STRATEGY_POLICIES StrategyId.dynamic_rescue
      else if analysis.target.high_band_energy - analysis.reference.high_band_energy ≥ 0.08 ∨
          analysis.sibilance_ratio_delta ≥ 0.025 then
        DECISION_STRATEGY_POLICIES StrategyId.harsh_tame
      else if analysis.target.low_band_energy - analysis.reference.low_band_energy ≥ 0.08 then
        DECISION_STRATEGY_POLICIES StrategyId.bass_control
      else DECISION_STRATEGY_POLICIES StrategyId.balanced) := by
  by_cases h1 : analysis.target.low_band_energy - analysis.reference.low_band_energy ≥ 0.08 <;>
  by_cases h2 : analysis.target.high_band_energy - analysis.reference.high_band_energy ≥ 0.08 ∨
      analysis.sibilance_ratio_delta ≥ 0.025 <;>
  by_cases h3 : analysis.reference.crest_factor_db - analysis.target.crest_factor_db ≥ 2.0 <;>
  by_cases h4 : analysis.target.is_clipping = true ∨ analysis.target.rms_db ≥ -9.0 <;>
  simp [select_decision_strategy, h1, h2, h3, h4]

theorem round6_int_div (n : ℤ) : round6 ((n : ℚ) / 1000000) = (n : ℚ) / 1000000 := by
  have hmul : (n : ℚ) / 1000000 * 1000000 = (n : ℚ) :=
    div_mul_cancel₀ _ (by norm_num)
  simp only [round6, hmul, Int.floor_intCast]
  norm_num

theorem round6_idem (q : ℚ) : round6 (round6 q) = round6 q :=
  round6_int_div _

theorem ref_match_stage_rounded (l : List EqBandCorrection) (t : EqPresetTuning) :
    ∀ p ∈ _build_reference_match_eq_stage l t, shelfGainRounded p = true := by
  intro p hp
  simp only [_build_reference_match_eq_stage, List.mem_flatten, List.mem_map] at hp
  obtain ⟨sub, ⟨c, _, hsub⟩, hps⟩ := hp
  subst hsub
  split at hps
  · simp only [List.mem_singleton] at hps
    subst hps
    simp [shelfGainRounded, round6_idem]
  split at hps
  · simp only [List.mem_singleton] at hps
    subst hps
    simp [shelfGainRounded, round6_idem]
  · simp only [List.mem_cons, List.mem_singleton, List.not_mem_nil, or_false] at hps
    rcases hps with hps | hps <;>
      (subst hps; simp [shelfGainRounded, round6_idem])

theorem de_esser_stage_rounded (d : DecisionPayload) (m : DeEsserMode) :
    ∀ p ∈ _build_optional_de_esser_stage d m, shelfGainRounded p = true := by
  intro p hp
  rw [_build_optional_de_esser_stage] at hp
  split at hp
  · simp at hp
  split at hp
  · simp at hp
  · simp only [List.mem_singleton] at hp
    subst hp
    simp [shelfGainRounded, round6_idem]

theorem dynamic_eq_stage_rounded (d : DecisionPayload) (adv : Bool) :
    ∀ p ∈ _build_optional_dynamic_eq_stage d adv, shelfGainRounded p = true := by
  intro p hp
  rw [_build_optional_dynamic_eq_stage] at hp
  split at hp
  · simp at hp
  split at hp
  · simp at hp
  · simp only [List.mem_singleton] at hp
    subst hp
    simp [shelfGainRounded, round6_idem]

theorem pre_limiter_plugins_rounded (decision : DecisionPayload) (tuning : EqPresetTuning)
    (eq_mode : EqMode) (eq_band_corrections : List EqBandCorrection)
    (de_esser_mode : DeEsserMode) (gain_db : ℚ) (advanced_mode : Bool) :
    ∀ p ∈ _build_pre_limiter_plugins decision tuning eq_mode eq_band_corrections
      de_esser_mode gain_db advanced_mode, shelfGainRounded p = true := by
  intro p hp
  simp only [_build_pre_limiter_plugins] at hp
  rcases List.mem_append.mp hp with hp | hp
  · rcases List.mem_append.mp hp with hp | hp
    · rcases List.mem_append.mp hp with hp | hp
      · rcases List.mem_append.mp hp with hp | hp
        · rcases List.mem_append.mp hp with hp | hp
          · simp only [List.mem_cons, List.not_mem_nil, or_false] at hp
            rcases hp with hp | hp | hp <;> subst hp <;>
              first
              | rfl
              | simp [shelfGainRounded, round6_idem]
          · split at hp
            · exact ref_match_stage_rounded eq_band_corrections tuning p hp
            · simp at hp
        · exact dynamic_eq_stage_rounded decision advanced_mode p hp
      · split at hp
        · simp at hp
        · simp only [List.mem_singleton] at hp
          subst hp
          rfl
    · simp only [List.mem_singleton] at hp
      subst hp
      rfl
  · exact de_esser_stage_rounded decision de_esser_mode p hp

/-- C8 counterexample: the chain built from a decision whose compressor
threshold, static gain and limiter ceiling are 1/3 contains stages whose
numeric parameters are not 6-decimal values, so not every stage parameter is
rounded to 6 decimal digits. -/
theorem C8_counterexample :
    ¬ (∀ p ∈ build_dsp_chain C8_decision EqMode.fixed EqPreset.neutral [] DeEsserMode.off false,
        ∀ q ∈ pluginParams p, round6 q = q) := by
  intro h
  have hmem : Plugin.gain C8_decision.gain_db ∈
      build_dsp_chain C8_decision EqMode.fixed EqPreset.neutral [] DeEsserMode.off false := by
    simp [build_dsp_chain, _build_pre_limiter_plugins]
  have hq := h _ hmem C8_decision.gain_db (by simp [pluginParams])
  have hg : C8_decision.gain_db = 1/3 := rfl
  rw [hg] at hq
  have hfloor : ⌊(1 : ℚ)/3 * 1000000⌋ = 333333 := by
    rw [Int.floor_eq_iff]
    norm_num
  have hval : round6 ((1 : ℚ)/3) = 333333/1000000 := by
    simp only [round6, hfloor]
    norm_num
  rw [hval] at hq
  norm_num at hq

/-- C8 (amended): every LowShelfFilter/HighShelfFilter gain in the built
chain (fixed shelves, reference-match EQ stages, dynamic-EQ and de-esser
stages) is rounded to 6 decimal digits, while the static gain amount, the
limiter ceiling and (when present) the compressor threshold and ratio are
the unrounded decision values. -/
theorem C8_amended_rounding (decision : DecisionPayload) (eq_mode : EqMode)
    (eq_preset : EqPreset) (eq_band_corrections : List EqBandCorrection)
    (de_esser_mode : DeEsserMode) (advanced_mode : Bool) :
    (∀ p ∈ build_dsp_chain decision eq_mode eq_preset eq_band_corrections de_esser_mode
        advanced_mode, shelfGainRounded p = true) ∧
    Plugin.gain decision.gain_db ∈
      build_dsp_chain decision eq_mode eq_preset eq_band_corrections de_esser_mode
        advanced_mode ∧
    Plugin.limiter decision.limiter_ceiling_db 150.0 ∈
      build_dsp_chain decision eq_mode eq_preset eq_band_corrections de_esser_mode
        advanced_mode ∧
    ((advanced_mode = true ∧ decision.multiband_compression_enabled = true) ∨
      Plugin.compressor decision.compressor_threshold_db decision.compressor_ratio 15.0 120.0 ∈
        build_dsp_chain decision eq_mode eq_preset eq_band_corrections de_esser_mode
          advanced_mode) := by
  refine ⟨?_, ?_, ?_, ?_⟩
  · intro p hp
    simp only [build_dsp_chain] at hp
    rcases List.mem_append.mp hp with hp | hp
    · exact pre_limiter_plugins_rounded decision (EQ_PRESET_TUNINGS eq_preset) eq_mode
        eq_band_corrections de_esser_mode decision.gain_db advanced_mode p hp
    · simp only [List.mem_singleton] at hp
      subst hp
      rfl
  · simp [build_dsp_chain, _build_pre_limiter_plugins]
  · simp [build_dsp_chain, _build_pre_limiter_plugins]
  · by_cases hmb : advanced_mode = true ∧ decision.multiband_compression_enabled = true
    · exact Or.inl hmb
    · refine Or.inr ?_
      simp [build_dsp_chain, _build_pre_limiter_plugins, hmb]

/-- C8 amended witness: a concrete shelf stage of a concrete chain has a
6-decimal gain, and the raw static gain stage is in that chain. -/
theorem C8_amended_rounding_witness :
    shelfGainRounded (Plugin.lowShelfFilter 125.0
      (round6 (C8_decision.low_shelf_gain_db +
        (EQ_PRESET_TUNINGS EqPreset.neutral).low_shelf_offset_db))) = true ∧
    Plugin.gain C8_decision.gain_db ∈
      build_dsp_chain C8_decision EqMode.fixed EqPreset.neutral [] DeEsserMode.off false :=
  ⟨(C8_amended_rounding C8_decision EqMode.fixed EqPreset.neutral [] DeEsserMode.off false).1
      _ (by with_unfolding_all decide),
    (C8_amended_rounding C8_decision EqMode.fixed EqPreset.neutral [] DeEsserMode.off
      false).2.1⟩

end AudoEq
